import Mathlib

/-!
Shallow embedding of the powerlifting warm-up / max-rep estimation core
(`powerlifting_backend/utils.py`), with the claims of the specification
settled as theorems.

Real numbers of the source are modelled as rationals, Python's `round`
(banker's rounding, ties to even) is modelled by `pyRound`, Python `dict`
lookup by `dlookup` on association lists, and `raise ValueError` by
`Except.error`. Where a result depends on IEEE-754 double round-off — the
tie-breaking of the `predict_max_reps` search — the arithmetic is re-embedded
with `flRound`, rounding every intermediate result to the nearest binary64
value (ties to even) as the Python floats do; the remaining results are
exact-decimal computations on which doubles and rationals agree.
-/

/-- Lookup in an association list, mirroring Python `dict` key access. -/
def dlookup {α β : Type} [DecidableEq α] (k : α) : List (α × β) → Option β
  | [] => none
  | (k', v) :: t => if k = k' then some v else dlookup k t

/-- Row of `RPE_PERCENT_TABLE` for RPE 10. -/
def rpeRow10 : List (ℤ × ℤ) :=
  [(1, 100), (2, 95), (3, 92), (4, 89), (5, 86), (6, 84), (7, 81), (8, 79), (9, 76), (10, 74)]

/-- Row of `RPE_PERCENT_TABLE` for RPE 9.5. -/
def rpeRow95 : List (ℤ × ℤ) :=
  [(1, 98), (2, 94), (3, 91), (4, 88), (5, 85), (6, 82), (7, 80), (8, 77), (9, 75), (10, 72)]

/-- Row of `RPE_PERCENT_TABLE` for RPE 9. -/
def rpeRow9 : List (ℤ × ℤ) :=
  [(1, 96), (2, 92), (3, 89), (4, 86), (5, 84), (6, 81), (7, 79), (8, 76), (9, 74), (10, 71)]

/-- Row of `RPE_PERCENT_TABLE` for RPE 8.5. -/
def rpeRow85 : List (ℤ × ℤ) :=
  [(1, 94), (2, 89), (3, 87), (4, 84), (5, 81), (6, 79), (7, 76), (8, 74), (9, 71), (10, 69)]

/-- Row of `RPE_PERCENT_TABLE` for RPE 8. -/
def rpeRow8 : List (ℤ × ℤ) :=
  [(1, 92), (2, 87), (3, 84), (4, 81), (5, 79), (6, 76), (7, 74), (8, 71), (9, 69), (10, 66)]

/-- Row of `RPE_PERCENT_TABLE` for RPE 7.5. -/
def rpeRow75 : List (ℤ × ℤ) :=
  [(1, 89), (2, 84), (3, 81), (4, 79), (5, 76), (6, 74), (7, 71), (8, 69), (9, 66), (10, 64)]

/-- The `RPE_PERCENT_TABLE` from `utils.py`: RPE → (reps → integer percent of 1RM). -/
def RPE_PERCENT_TABLE : List (ℚ × List (ℤ × ℤ)) :=
  [(10, rpeRow10), (19/2, rpeRow95), (9, rpeRow9), (17/2, rpeRow85), (8, rpeRow8), (15/2, rpeRow75)]

/-- Python's built-in `round` on rationals: round half to even (banker's rounding). -/
def pyRound (q : ℚ) : ℤ :=
  if 2 * q = 2 * (Int.floor q : ℚ) + 1 then
    (if Int.floor q % 2 = 0 then Int.floor q else Int.floor q + 1)
  else round q

/-- The quantization `rpe = round(rpe * 2) / 2` performed at the top of `_lookup_percent`. -/
def quantizeRPE (rpe : ℚ) : ℚ := (pyRound (rpe * 2) : ℚ) / 2

/-- Embedding of `_lookup_percent` from `utils.py`: table hit divided by 100, otherwise the
Epley-style fallback `1 / (1 + 0.0333 * (reps - 1))`. -/
def _lookup_percent (rpe : ℚ) (reps : ℤ) : ℚ :=
  ((dlookup (quantizeRPE rpe) RPE_PERCENT_TABLE).bind
      (fun row => (dlookup reps row).map (fun v => (v : ℚ) / 100))).getD
    (1 / (1 + 333/10000 * ((reps : ℚ) - 1)))

/-- A warm-up set as produced by `calculate_warmup_sets`. -/
structure WarmupSet where
  set_number : ℤ
  weight : ℚ
  reps : ℤ
  description : String
  deriving DecidableEq

/-- The fixed warm-up protocol `warmup_percentages` from `utils.py`. -/
def warmup_percentages : List (ℚ × ℤ × String) :=
  [(1/2, 5, "50% of top set"),
   (7/10, 3, "70% of top set"),
   (4/5, 2, "80% of top set"),
   (9/10, 1, "90% of top set")]

/-- The per-set weight `round(weight * pct / 2.5) * 2.5` (nearest 2.5 kg). -/
def set_weight (weight pct : ℚ) : ℚ := (pyRound (weight * pct / (5/2)) : ℚ) * (5/2)

/-- The loop body of `calculate_warmup_sets`: build the four sets from
`warmup_percentages`, numbering them from 1. -/
def warmupSetsCore (weight : ℚ) : List WarmupSet :=
  warmup_percentages.enum.map
    (fun p => (⟨(p.1 : ℤ) + 1, set_weight weight p.2.1, p.2.2.1, p.2.2.2⟩ : WarmupSet))

/-- Embedding of `calculate_warmup_sets` from `utils.py`, with `raise ValueError` modelled
as `Except.error` (checks in source order: rpe, weight, reps). -/
def calculate_warmup_sets (rpe weight : ℚ) (reps : ℤ) : Except String (List WarmupSet) :=
  if ¬(5 ≤ rpe ∧ rpe ≤ 10) then Except.error "RPE must be 5.0–10.0"
  else if weight ≤ 0 then Except.error "Weight must be positive"
  else if ¬(1 ≤ reps ∧ reps ≤ 20) then Except.error "Reps must be 1–20"
  else Except.ok (warmupSetsCore weight)

/-- One iteration of the search loop in `predict_max_reps`. The state is
`(min_diff, best_reps)`; `none` stands for the initial `float('inf')`. -/
def predictStep (weight rpe : ℚ) (st : Option ℚ × ℤ) (test_reps : ℤ) : Option ℚ × ℤ :=
  let pct := _lookup_percent rpe test_reps
  let est_1rm := if 0 < pct then weight / pct else 0
  let calc_weight := est_1rm * pct
  let diff := |calc_weight - weight|
  match st.1 with
  | none => (some diff, test_reps)
  | some m => if diff < m then (some diff, test_reps) else st

/-- The candidate rep counts `range(1, 16)` scanned by `predict_max_reps`. -/
def predictCandidates : List ℤ := (List.range 15).map (fun i => (i : ℤ) + 1)

/-- Embedding of `predict_max_reps` from `utils.py` (checks in source order: weight, rpe). -/
def predict_max_reps (weight rpe : ℚ) : Except String ℤ :=
  if weight ≤ 0 then Except.error "Weight must be positive"
  else if ¬(5 ≤ rpe ∧ rpe ≤ 10) then Except.error "RPE must be 5.0–10.0"
  else Except.ok (predictCandidates.foldl (predictStep weight rpe) (none, 1)).2

/-- Reference definition of the percent lookup following the words of the
specification: quantize `rpe` to `q = round(rpe*2)/2`; if `q` is one of the
table keys {10, 9.5, 9, 8.5, 8, 7.5} and `reps` is in 1..10, return
`table[q][reps] / 100`; otherwise return the rpe-independent fallback
`1 / (1 + 0.0333 * (reps - 1))`. -/
def lookup_percent_spec (rpe : ℚ) (reps : ℤ) : ℚ :=
  if (quantizeRPE rpe = 10 ∨ quantizeRPE rpe = 19/2 ∨ quantizeRPE rpe = 9 ∨
      quantizeRPE rpe = 17/2 ∨ quantizeRPE rpe = 8 ∨ quantizeRPE rpe = 15/2) ∧
      (1 ≤ reps ∧ reps ≤ 10) then
    ((dlookup reps ((dlookup (quantizeRPE rpe) RPE_PERCENT_TABLE).getD [])).getD 0 : ℚ) / 100
  else 1 / (1 + 333/10000 * ((reps : ℚ) - 1))

/-- Fuel-indexed search for the binade of a positive rational, scanning
exponents downward: `binExpAux (n+1) q` answers `n - 61` when `2^(n-61) ≤ q`
and recurses otherwise. -/
def binExpAux : ℕ → ℚ → ℤ
  | 0, _ => -61
  | n + 1, q => if (2 : ℚ) ^ ((n : ℤ) - 61) ≤ q then (n : ℤ) - 61 else binExpAux n q

/-- Binade exponent of a positive rational in the supported range
[2^(-61), 2^60): the unique `e` with `2^e ≤ q < 2^(e+1)`. -/
def binadeExp (q : ℚ) : ℤ := binExpAux 121 q

/-- Rounding of a rational to the nearest IEEE-754 binary64 value (round to
nearest, ties to even) for magnitudes in the normal range covered by
`binadeExp`: the scaled 53-bit significand is rounded by `pyRound` (which is
round-half-to-even) and rescaled. This models the double arithmetic the
Python source computes in. -/
def flRound (x : ℚ) : ℚ :=
  if x = 0 then 0
  else if 0 < x then
    (pyRound (x / 2 ^ (binadeExp x - 52)) : ℚ) * 2 ^ (binadeExp x - 52)
  else
    -((pyRound ((-x) / 2 ^ (binadeExp (-x) - 52)) : ℚ) * 2 ^ (binadeExp (-x) - 52))

/-- The quantization `round(rpe * 2) / 2` of `_lookup_percent` with double
arithmetic: the product and the final division are rounded. -/
def quantizeRPE_float (rpe : ℚ) : ℚ :=
  flRound ((pyRound (flRound (rpe * 2)) : ℚ) / 2)

/-- Re-embedding of `_lookup_percent` with IEEE double arithmetic: the table
value is divided by 100 in doubles, and the Epley fallback
`1 / (1 + 0.0333 * (reps - 1))` rounds the literal 0.0333 and each operation,
exactly as the floats of the source do. -/
def _lookup_percent_float (rpe : ℚ) (reps : ℤ) : ℚ :=
  ((dlookup (quantizeRPE_float rpe) RPE_PERCENT_TABLE).bind
      (fun row => (dlookup reps row).map (fun v => flRound ((v : ℚ) / 100)))).getD
    (flRound (1 / flRound (1 + flRound (flRound (333/10000) * ((reps : ℚ) - 1)))))

/-- The search loop body of `predict_max_reps` with double arithmetic: the
division, the multiplication and the subtraction inside `abs` are each
rounded to binary64. -/
def predictStep_float (weight rpe : ℚ) (st : Option ℚ × ℤ) (test_reps : ℤ) :
    Option ℚ × ℤ :=
  let pct := _lookup_percent_float rpe test_reps
  let est_1rm := if 0 < pct then flRound (weight / pct) else 0
  let calc_weight := flRound (est_1rm * pct)
  let diff := |flRound (calc_weight - weight)|
  match st.1 with
  | none => (some diff, test_reps)
  | some m => if diff < m then (some diff, test_reps) else st

/-- Re-embedding of `predict_max_reps` with double arithmetic (same guards,
same candidate scan, loop body `predictStep_float`). -/
def predict_max_reps_float (weight rpe : ℚ) : Except String ℤ :=
  if weight ≤ 0 then Except.error "Weight must be positive"
  else if ¬(5 ≤ rpe ∧ rpe ≤ 10) then Except.error "RPE must be 5.0–10.0"
  else Except.ok (predictCandidates.foldl (predictStep_float weight rpe) (none, 1)).2

/-! ### Helper lemmas -/

/-- Evaluation of the fuel-indexed binade search from a bracketing of `q`
between consecutive powers of two. -/
theorem binExpAux_eq : ∀ (n : ℕ) (q : ℚ) (e : ℤ), -61 ≤ e → e < (n : ℤ) - 61 →
    (2 : ℚ) ^ e ≤ q → q < 2 ^ (e + 1) → binExpAux n q = e := by
  intro n
  induction n with
  | zero => intro q e he1 he2 _ _; exfalso; omega
  | succ n ih =>
    intro q e he1 he2 h1 h2
    simp only [binExpAux]
    by_cases hc : (2 : ℚ) ^ ((n : ℤ) - 61) ≤ q
    · rw [if_pos hc]
      by_contra hne
      have he3 : e + 1 ≤ (n : ℤ) - 61 := by
        have : e ≤ (n : ℤ) - 61 := by omega
        rcases lt_or_eq_of_le this with h | h
        · omega
        · exact absurd h.symm (fun hh => hne (by omega))
      have hle : (2 : ℚ) ^ (e + 1) ≤ 2 ^ ((n : ℤ) - 61) :=
        zpow_le_zpow_right₀ (by norm_num) he3
      linarith
    · rw [if_neg hc]
      have he2' : e < (n : ℤ) - 61 := by
        by_contra hge
        have heq : e = (n : ℤ) - 61 := by omega
        exact hc (heq ▸ h1)
      exact ih q e he1 he2' h1 h2

/-- Evaluation of `binadeExp` from a bracketing between consecutive powers
of two. -/
theorem binadeExp_eq {q : ℚ} {e : ℤ} (he1 : -61 ≤ e) (he2 : e ≤ 59)
    (h1 : (2 : ℚ) ^ e ≤ q) (h2 : q < 2 ^ (e + 1)) : binadeExp q = e :=
  binExpAux_eq 121 q e he1 (by omega) h1 h2

/-- A successful `dlookup` finds an entry of the list. -/
theorem dlookup_mem {α β : Type} [DecidableEq α] {k : α} {v : β} :
    ∀ {l : List (α × β)}, dlookup k l = some v → (k, v) ∈ l := by
  intro l
  induction l with
  | nil => intro h; simp [dlookup] at h
  | cons p t ih =>
    obtain ⟨k', v'⟩ := p
    intro h
    rw [dlookup] at h
    by_cases hk : k = k'
    · rw [if_pos hk] at h
      injection h with h
      subst hk; subst h
      exact List.mem_cons_self _ _
    · rw [if_neg hk] at h
      exact List.mem_cons_of_mem _ (ih h)

/-- Lookup misses when no entry has the key. -/
theorem dlookup_eq_none {α β : Type} [DecidableEq α] {k : α} :
    ∀ {l : List (α × β)}, (∀ p ∈ l, p.1 ≠ k) → dlookup k l = none := by
  intro l
  induction l with
  | nil => intro _; rfl
  | cons p t ih =>
    obtain ⟨k', v'⟩ := p
    intro h
    rw [dlookup, if_neg (fun hk => h (k', v') (List.mem_cons_self _ _) hk.symm)]
    exact ih (fun q hq => h q (List.mem_cons_of_mem _ hq))

/-- Every percentage stored in the RPE table lies in (0, 100]. -/
theorem table_entry_bounds {q : ℚ} {row : List (ℤ × ℤ)}
    (hrow : dlookup q RPE_PERCENT_TABLE = some row)
    {r v : ℤ} (hv : dlookup r row = some v) : 0 < v ∧ v ≤ 100 := by
  have hmem := dlookup_mem hrow
  have hmem2 := dlookup_mem hv
  simp only [RPE_PERCENT_TABLE, List.mem_cons, List.not_mem_nil, or_false,
    Prod.mk.injEq] at hmem
  rcases hmem with ⟨-, hr⟩ | ⟨-, hr⟩ | ⟨-, hr⟩ | ⟨-, hr⟩ | ⟨-, hr⟩ | ⟨-, hr⟩ <;> subst hr
  · exact (by decide : ∀ e ∈ rpeRow10, 0 < e.2 ∧ e.2 ≤ 100) _ hmem2
  · exact (by decide : ∀ e ∈ rpeRow95, 0 < e.2 ∧ e.2 ≤ 100) _ hmem2
  · exact (by decide : ∀ e ∈ rpeRow9, 0 < e.2 ∧ e.2 ≤ 100) _ hmem2
  · exact (by decide : ∀ e ∈ rpeRow85, 0 < e.2 ∧ e.2 ≤ 100) _ hmem2
  · exact (by decide : ∀ e ∈ rpeRow8, 0 < e.2 ∧ e.2 ≤ 100) _ hmem2
  · exact (by decide : ∀ e ∈ rpeRow75, 0 < e.2 ∧ e.2 ≤ 100) _ hmem2

/-- The percent lookup always yields a value in (0, 1] when `reps ≥ 1`. -/
theorem lookup_percent_pos (rpe : ℚ) {reps : ℤ} (h : 1 ≤ reps) :
    0 < _lookup_percent rpe reps ∧ _lookup_percent rpe reps ≤ 1 := by
  have hfall : 0 < 1 / (1 + 333/10000 * ((reps : ℚ) - 1)) ∧
      1 / (1 + 333/10000 * ((reps : ℚ) - 1)) ≤ 1 := by
    have h1 : (1 : ℚ) ≤ (reps : ℚ) := by exact_mod_cast h
    have hd : (1 : ℚ) ≤ 1 + 333/10000 * ((reps : ℚ) - 1) := by nlinarith
    constructor
    · exact div_pos one_pos (by linarith)
    · rw [div_le_one (by linarith)]; linarith
  unfold _lookup_percent
  cases htab : dlookup (quantizeRPE rpe) RPE_PERCENT_TABLE with
  | none => simpa using hfall
  | some row =>
    cases hrowv : dlookup reps row with
    | none => simpa [hrowv] using hfall
    | some v =>
      obtain ⟨hv1, hv2⟩ := table_entry_bounds htab hrowv
      have hv1' : (0 : ℚ) < (v : ℚ) := by exact_mod_cast hv1
      have hv2' : ((v : ℚ)) ≤ 100 := by exact_mod_cast hv2
      have hle : (v : ℚ) / 100 ≤ 1 := by
        rw [div_le_one (by norm_num : (0:ℚ) < 100)]; linarith
      constructor
      · simpa [hrowv] using hv1
      · simpa [hrowv] using hle

/-- A float search step at a state whose best difference is already `0` changes
nothing: the new difference is an absolute value, never strictly below 0. -/
theorem predictStep_float_keep0 (w rpe : ℚ) (b r : ℤ) :
    predictStep_float w rpe (some 0, b) r = (some 0, b) := by
  simp only [predictStep_float]
  rw [if_neg (not_lt.mpr (abs_nonneg _))]

/-- Folding the float search step over any candidates keeps `(0, b)`. -/
theorem foldl_predictStep_float_keep (w rpe : ℚ) (b : ℤ) (l : List ℤ) :
    l.foldl (predictStep_float w rpe) (some 0, b) = (some 0, b) := by
  induction l with
  | nil => rfl
  | cons a t ih => rw [List.foldl_cons, predictStep_float_keep0]; exact ih

/-- A float search step keeps the current best rep count or moves to the
scanned candidate. -/
theorem predictStep_float_snd (w rpe : ℚ) (st : Option ℚ × ℤ) (r : ℤ) :
    (predictStep_float w rpe st r).2 = st.2 ∨ (predictStep_float w rpe st r).2 = r := by
  obtain ⟨mo, b⟩ := st
  cases mo with
  | none => right; rfl
  | some m =>
    simp only [predictStep_float]
    split_ifs <;> first | (left; rfl) | (right; rfl)

/-- The folded float search ends at the initial best rep count or at one of the
scanned candidates. -/
theorem foldl_predictStep_float_snd (w rpe : ℚ) (l : List ℤ) :
    ∀ st : Option ℚ × ℤ, (l.foldl (predictStep_float w rpe) st).2 = st.2 ∨
      (l.foldl (predictStep_float w rpe) st).2 ∈ l := by
  induction l with
  | nil => intro st; left; rfl
  | cons a t ih =>
    intro st
    rw [List.foldl_cons]
    rcases ih (predictStep_float w rpe st a) with h | h
    · rcases predictStep_float_snd w rpe st a with h2 | h2
      · left; rw [h, h2]
      · right; rw [h, h2]; exact List.mem_cons_self _ _
    · right; exact List.mem_cons_of_mem _ h

/-- The first float search step at a candidate whose percent is exactly 1
(table value 100) lands on a difference of exactly 0, for any weight that is
itself a binary64 value: dividing and multiplying by 1.0 and subtracting the
weight from itself are exact. -/
theorem predictStep_float_exact_pct1 (w rpe : ℚ) (b r : ℤ)
    (hpct : _lookup_percent_float rpe r = 1) (hfl : flRound w = w) :
    predictStep_float w rpe (none, b) r = (some 0, r) := by
  have h0 : flRound (0 : ℚ) = 0 := by simp [flRound]
  simp only [predictStep_float, hpct]
  norm_num [hfl, h0]

/-! ### Claims -/

/-- Binade of the residual 2^(-47) appearing in the (63.0, 9.5) trace. -/
theorem binadeExp_v1 : binadeExp ((1 : ℚ) / 140737488355328) = -47 :=
  binadeExp_eq (by norm_num) (by norm_num) (by norm_num) (by norm_num)

/-- Binade of the literal 0.0333 of the Epley fallback. -/
theorem binadeExp_v2 : binadeExp ((333 : ℚ) / 10000) = -5 :=
  binadeExp_eq (by norm_num) (by norm_num) (by norm_num) (by norm_num)

/-- Binade of the double nearest 0.0333. -/
theorem binadeExp_v3 : binadeExp ((4799035762926001 : ℚ) / 144115188075855872) = -5 :=
  binadeExp_eq (by norm_num) (by norm_num) (by norm_num) (by norm_num)

/-- Binade of twice the double nearest 0.0333. -/
theorem binadeExp_v4 : binadeExp ((4799035762926001 : ℚ) / 72057594037927936) = -4 :=
  binadeExp_eq (by norm_num) (by norm_num) (by norm_num) (by norm_num)

/-- Binade of 94/100. -/
theorem binadeExp_v5 : binadeExp ((47 : ℚ) / 50) = -1 :=
  binadeExp_eq (by norm_num) (by norm_num) (by norm_num) (by norm_num)

/-- Binade of 98/100. -/
theorem binadeExp_v6 : binadeExp ((49 : ℚ) / 50) = -1 :=
  binadeExp_eq (by norm_num) (by norm_num) (by norm_num) (by norm_num)

/-- Binade of 91/100. -/
theorem binadeExp_v7 : binadeExp ((91 : ℚ) / 100) = -1 :=
  binadeExp_eq (by norm_num) (by norm_num) (by norm_num) (by norm_num)

/-- Binade of the reciprocal of the rounded 1 + 0.0333*2. -/
theorem binadeExp_v8 : binadeExp ((2251799813685248 : ℚ) / 2326784747480967) = -1 :=
  binadeExp_eq (by norm_num) (by norm_num) (by norm_num) (by norm_num)

/-- Binade of the reciprocal of the rounded 1 + 0.0333*1. -/
theorem binadeExp_v9 : binadeExp ((4503599627370496 : ℚ) / 4803539362553371) = -1 :=
  binadeExp_eq (by norm_num) (by norm_num) (by norm_num) (by norm_num)

/-- Binade of 1. -/
theorem binadeExp_v10 : binadeExp (1 : ℚ) = 0 :=
  binadeExp_eq (by norm_num) (by norm_num) (by norm_num) (by norm_num)

/-- Binade of the rounded 1 + 0.0333*2. -/
theorem binadeExp_v11 : binadeExp ((76856629800853937 : ℚ) / 72057594037927936) = 0 :=
  binadeExp_eq (by norm_num) (by norm_num) (by norm_num) (by norm_num)

/-- Binade of the rounded 1 + 0.0333*1. -/
theorem binadeExp_v12 : binadeExp ((148914223838781873 : ℚ) / 144115188075855872) = 0 :=
  binadeExp_eq (by norm_num) (by norm_num) (by norm_num) (by norm_num)

/-- Binade of 10. -/
theorem binadeExp_v13 : binadeExp (10 : ℚ) = 3 :=
  binadeExp_eq (by norm_num) (by norm_num) (by norm_num) (by norm_num)

/-- Binade of 9.5. -/
theorem binadeExp_v14 : binadeExp ((19 : ℚ) / 2) = 3 :=
  binadeExp_eq (by norm_num) (by norm_num) (by norm_num) (by norm_num)

/-- Binade of 19. -/
theorem binadeExp_v15 : binadeExp (19 : ℚ) = 4 :=
  binadeExp_eq (by norm_num) (by norm_num) (by norm_num) (by norm_num)

/-- Binade of 20. -/
theorem binadeExp_v16 : binadeExp (20 : ℚ) = 4 :=
  binadeExp_eq (by norm_num) (by norm_num) (by norm_num) (by norm_num)

/-- Binade of 63. -/
theorem binadeExp_v17 : binadeExp (63 : ℚ) = 5 :=
  binadeExp_eq (by norm_num) (by norm_num) (by norm_num) (by norm_num)

/-- Binade of est*pct at r = 2 in the (63, 9.5) trace. -/
theorem binadeExp_v18 :
    binadeExp ((9982748476797305925806173401461 : ℚ) / 158456325028528675187087900672) = 5 :=
  binadeExp_eq (by norm_num) (by norm_num) (by norm_num) (by norm_num)

/-- Binade of est*pct at r = 3 in the (63, 9.5) trace. -/
theorem binadeExp_v19 :
    binadeExp ((9982748476797306247300350156069 : ℚ) / 158456325028528675187087900672) = 5 :=
  binadeExp_eq (by norm_num) (by norm_num) (by norm_num) (by norm_num)

/-- Binade of est*pct at r = 1 in the (63, 9.5) trace. -/
theorem binadeExp_v20 :
    binadeExp ((9982748476797307301594260176147 : ℚ) / 158456325028528675187087900672) = 5 :=
  binadeExp_eq (by norm_num) (by norm_num) (by norm_num) (by norm_num)

/-- Binade of 63/pct at r = 3 in the (63, 9.5) trace. -/
theorem binadeExp_v21 : binadeExp ((27021597764222976 : ℚ) / 390311967705443) = 6 :=
  binadeExp_eq (by norm_num) (by norm_num) (by norm_num) (by norm_num)

/-- Binade of 63/pct at r = 1 in the (63, 9.5) trace. -/
theorem binadeExp_v22 : binadeExp ((47287796087390208 : ℚ) / 735587939137181) = 6 :=
  binadeExp_eq (by norm_num) (by norm_num) (by norm_num) (by norm_num)

/-- Binade of 63/pct at r = 2 in the (63, 9.5) trace. -/
theorem binadeExp_v23 : binadeExp ((141863388262170624 : ℚ) / 2116691824864133) = 6 :=
  binadeExp_eq (by norm_num) (by norm_num) (by norm_num) (by norm_num)

set_option maxHeartbeats 1600000 in
/-- Claim C1 counterexample: in IEEE double arithmetic `predict_max_reps` does
NOT always return 1: at weight 63.0, RPE 9.5 the round-trip residual at r = 1
is 2^(-47) while at r = 3 it is exactly 0, so the strict-< replacement fires
and the program returns 3. -/
theorem predict_max_reps_float_cex : predict_max_reps_float 63 (19/2) = Except.ok 3 := by
  have hq : quantizeRPE_float (19/2) = 19/2 := by
    norm_num [quantizeRPE_float, flRound, binadeExp_v14, binadeExp_v15, pyRound, round_eq]
  have h1 : predictStep_float 63 (19/2) (none, 1) 1 = (some (1/140737488355328), 1) := by
    norm_num [predictStep_float, _lookup_percent_float, hq, dlookup, RPE_PERCENT_TABLE,
      rpeRow95, flRound, pyRound, round_eq, abs_of_nonneg, binadeExp_v1, binadeExp_v2,
      binadeExp_v6, binadeExp_v10, binadeExp_v17, binadeExp_v20, binadeExp_v22]
  have h2 : predictStep_float 63 (19/2) (some (1/140737488355328), 1) 2
      = (some (1/140737488355328), 1) := by
    norm_num [predictStep_float, _lookup_percent_float, hq, dlookup, RPE_PERCENT_TABLE,
      rpeRow95, flRound, pyRound, round_eq, abs_of_nonneg, binadeExp_v1, binadeExp_v2,
      binadeExp_v3, binadeExp_v5, binadeExp_v9, binadeExp_v12, binadeExp_v17,
      binadeExp_v18, binadeExp_v23]
  have h3 : predictStep_float 63 (19/2) (some (1/140737488355328), 1) 3 = (some 0, 3) := by
    norm_num [predictStep_float, _lookup_percent_float, hq, dlookup, RPE_PERCENT_TABLE,
      rpeRow95, flRound, pyRound, round_eq, abs_of_nonneg, binadeExp_v2, binadeExp_v4,
      binadeExp_v7, binadeExp_v8, binadeExp_v11, binadeExp_v17, binadeExp_v19,
      binadeExp_v21]
  unfold predict_max_reps_float
  rw [if_neg (by norm_num), if_neg (by norm_num)]
  have hc : predictCandidates
      = 1 :: 2 :: 3 :: [4, 5, 6, 7, 8, 9, 10, 11, 12, 13, 14, 15] := by decide
  rw [hc, List.foldl_cons, h1, List.foldl_cons, h2, List.foldl_cons, h3,
    foldl_predictStep_float_keep]

set_option maxHeartbeats 800000 in
/-- Claim C1 amended: in the double-arithmetic model, `predict_max_reps` always
returns an integer in [1, 15]; it keeps the first candidate only when no later
candidate's float round-trip residual strictly beats it — in particular it
returns 1 for every representable weight at RPE 10, where pct = 1.0 makes the
r = 1 round-trip exact — but a nonzero residual at r = 1 can hand the result
to a later candidate, as at (63.0, 9.5). -/
theorem predict_max_reps_float_amended :
    (∀ w rpe : ℚ, 0 < w → 5 ≤ rpe → rpe ≤ 10 →
      ∃ n, predict_max_reps_float w rpe = Except.ok n ∧ 1 ≤ n ∧ n ≤ 15) ∧
    (∀ w : ℚ, 0 < w → flRound w = w → predict_max_reps_float w 10 = Except.ok 1) := by
  constructor
  · intro w rpe hw h5 h10
    unfold predict_max_reps_float
    rw [if_neg (not_le.mpr hw), if_neg (not_not_intro ⟨h5, h10⟩)]
    refine ⟨_, rfl, ?_, ?_⟩
    · rcases foldl_predictStep_float_snd w rpe predictCandidates (none, 1) with h | h
      · rw [h]
      · exact ((by decide : ∀ r ∈ predictCandidates, 1 ≤ r ∧ r ≤ 15) _ h).1
    · rcases foldl_predictStep_float_snd w rpe predictCandidates (none, 1) with h | h
      · rw [h]; norm_num
      · exact ((by decide : ∀ r ∈ predictCandidates, 1 ≤ r ∧ r ≤ 15) _ h).2
  · intro w hw hfl
    have hpct : _lookup_percent_float 10 1 = 1 := by
      norm_num [_lookup_percent_float, quantizeRPE_float, flRound, pyRound, round_eq,
        dlookup, RPE_PERCENT_TABLE, rpeRow10, binadeExp_v2, binadeExp_v10,
        binadeExp_v13, binadeExp_v16]
    unfold predict_max_reps_float
    rw [if_neg (not_le.mpr hw), if_neg (by norm_num)]
    have hc : predictCandidates
        = 1 :: [2, 3, 4, 5, 6, 7, 8, 9, 10, 11, 12, 13, 14, 15] := by decide
    rw [hc, List.foldl_cons, predictStep_float_exact_pct1 w 10 1 1 hpct hfl,
      foldl_predictStep_float_keep]

/-- Claim C1 amended witness at weight 63 (a representable weight), RPE 10. -/
theorem predict_max_reps_float_amended_witness :
    predict_max_reps_float 63 10 = Except.ok 1 :=
  predict_max_reps_float_amended.2 63 (by norm_num)
    (by norm_num [flRound, pyRound, round_eq, binadeExp_v17])

/-- Half-up rounding is monotone on ℚ. -/
theorem round_mono_rat {x y : ℚ} (h : x ≤ y) : round x ≤ round y := by
  rw [round_eq, round_eq]
  exact Int.floor_mono (by linarith)

/-- At an exact half tie, `round` (half-up) gives `floor + 1`. -/
theorem round_of_tie {q : ℚ} (h : 2 * q = 2 * (Int.floor q : ℚ) + 1) :
    round q = Int.floor q + 1 := by
  have hq : q = (Int.floor q : ℚ) + 1/2 := by linarith
  rw [round_eq, show q + 1/2 = ((Int.floor q + 1 : ℤ) : ℚ) by push_cast; linarith]
  exact Int.floor_intCast _

/-- Banker's rounding never exceeds half-up rounding. -/
theorem pyRound_le_round (q : ℚ) : pyRound q ≤ round q := by
  unfold pyRound
  split_ifs with h1 h2
  · rw [round_of_tie h1]; omega
  · rw [round_of_tie h1]
  · exact le_refl _

/-- Banker's rounding is monotone. -/
theorem pyRound_mono {x y : ℚ} (h : x ≤ y) : pyRound x ≤ pyRound y := by
  by_cases hy : 2 * y = 2 * (Int.floor y : ℚ) + 1
  · by_cases hye : Int.floor y % 2 = 0
    · have hpy : pyRound y = Int.floor y := by
        unfold pyRound; rw [if_pos hy, if_pos hye]
      rcases eq_or_lt_of_le h with rfl | hlt
      · exact le_refl _
      · rw [hpy]
        have hyf : y = (Int.floor y : ℚ) + 1/2 := by linarith
        by_cases hx : 2 * x = 2 * (Int.floor x : ℚ) + 1
        · have hxf : x = (Int.floor x : ℚ) + 1/2 := by linarith
          have hfl : Int.floor x < Int.floor y := by
            have hq : (Int.floor x : ℚ) < (Int.floor y : ℚ) := by
              rw [hxf, hyf] at hlt; linarith
            exact_mod_cast hq
          unfold pyRound
          rw [if_pos hx]
          split_ifs <;> omega
        · have hrx : round x ≤ Int.floor y := by
            rw [round_eq]
            have hlt2 : x + 1/2 < ((Int.floor y + 1 : ℤ) : ℚ) := by
              push_cast; rw [hyf] at hlt; linarith
            have := Int.floor_lt.mpr hlt2
            omega
          unfold pyRound
          rw [if_neg hx]
          exact hrx
    · have hpy : pyRound y = Int.floor y + 1 := by
        unfold pyRound; rw [if_pos hy, if_neg hye]
      rw [hpy, ← round_of_tie hy]
      exact le_trans (pyRound_le_round x) (round_mono_rat h)
  · have hpy : pyRound y = round y := by
      unfold pyRound; rw [if_neg hy]
    rw [hpy]
    exact le_trans (pyRound_le_round x) (round_mono_rat h)

/-- The rounded warm-up weight is monotone in the percentage (for weight > 0). -/
theorem set_weight_mono {w p p' : ℚ} (hw : 0 < w) (hp : p ≤ p') :
    set_weight w p ≤ set_weight w p' := by
  unfold set_weight
  have h1 : w * p / (5/2) ≤ w * p' / (5/2) := by
    have := mul_le_mul_of_nonneg_left hp hw.le
    linarith
  have h2 := pyRound_mono h1
  have h3 : ((pyRound (w * p / (5/2)) : ℤ) : ℚ) ≤ ((pyRound (w * p' / (5/2)) : ℤ) : ℚ) := by
    exact_mod_cast h2
  nlinarith

/-- Unrolling of `warmupSetsCore` to its four explicit sets. -/
theorem warmupSetsCore_eq (w : ℚ) :
    warmupSetsCore w =
      [⟨1, set_weight w (1/2), 5, "50% of top set"⟩,
       ⟨2, set_weight w (7/10), 3, "70% of top set"⟩,
       ⟨3, set_weight w (4/5), 2, "80% of top set"⟩,
       ⟨4, set_weight w (9/10), 1, "90% of top set"⟩] := by
  rfl

/-- Claim C4: for every valid input, `generate_warmups` returns exactly 4 sets in
fixed order with set_number 1..4, reps [5, 3, 2, 1], the fixed description
strings, each weight `round(weight*pct/2.5)*2.5` for pct in [0.5, 0.7, 0.8, 0.9]
— hence a multiple of 2.5 — with weights non-decreasing by set index. -/
theorem generate_warmups_shape (rpe w : ℚ) (reps : ℤ)
    (h5 : 5 ≤ rpe) (h10 : rpe ≤ 10) (hw : 0 < w) (hr1 : 1 ≤ reps) (hr20 : reps ≤ 20) :
    calculate_warmup_sets rpe w reps = Except.ok (warmupSetsCore w) ∧
    (warmupSetsCore w).length = 4 ∧
    (warmupSetsCore w).map (fun s => s.set_number) = [1, 2, 3, 4] ∧
    (warmupSetsCore w).map (fun s => s.reps) = [5, 3, 2, 1] ∧
    (warmupSetsCore w).map (fun s => s.description) =
      ["50% of top set", "70% of top set", "80% of top set", "90% of top set"] ∧
    (warmupSetsCore w).map (fun s => s.weight) =
      [set_weight w (1/2), set_weight w (7/10), set_weight w (4/5), set_weight w (9/10)] ∧
    (∀ s ∈ warmupSetsCore w, ∃ n : ℤ, s.weight = (n : ℚ) * (5/2)) ∧
    (set_weight w (1/2) ≤ set_weight w (7/10) ∧
     set_weight w (7/10) ≤ set_weight w (4/5) ∧
     set_weight w (4/5) ≤ set_weight w (9/10)) := by
  refine ⟨?_, ?_, ?_, ?_, ?_, ?_, ?_, ?_, ?_, ?_⟩
  · unfold calculate_warmup_sets
    rw [if_neg (not_not_intro ⟨h5, h10⟩), if_neg (not_le.mpr hw),
      if_neg (not_not_intro ⟨hr1, hr20⟩)]
  · rw [warmupSetsCore_eq]; rfl
  · rw [warmupSetsCore_eq]; rfl
  · rw [warmupSetsCore_eq]; rfl
  · rw [warmupSetsCore_eq]; rfl
  · rw [warmupSetsCore_eq]; rfl
  · rw [warmupSetsCore_eq]
    intro s hs
    simp only [List.mem_cons, List.not_mem_nil, or_false] at hs
    rcases hs with rfl | rfl | rfl | rfl
    · exact ⟨pyRound (w * (1/2) / (5/2)), rfl⟩
    · exact ⟨pyRound (w * (7/10) / (5/2)), rfl⟩
    · exact ⟨pyRound (w * (4/5) / (5/2)), rfl⟩
    · exact ⟨pyRound (w * (9/10) / (5/2)), rfl⟩
  · exact set_weight_mono hw (by norm_num)
  · exact set_weight_mono hw (by norm_num)
  · exact set_weight_mono hw (by norm_num)

/-- Claim C4 witness at rpe 8, weight 100, reps 5. -/
theorem generate_warmups_shape_witness :
    calculate_warmup_sets 8 100 5 = Except.ok (warmupSetsCore 100) :=
  (generate_warmups_shape 8 100 5 (by norm_num) (by norm_num) (by norm_num)
    (by norm_num) (by norm_num)).1

/-- Claim C7: for a fixed weight > 0 and any two valid (rpe, reps) pairs,
`generate_warmups` returns the same sets: the output depends only on the
top-set weight, never on the top set's RPE or rep count. -/
theorem warmups_independent_of_rpe_reps (w rpe1 rpe2 : ℚ) (reps1 reps2 : ℤ)
    (hw : 0 < w)
    (h15 : 5 ≤ rpe1) (h110 : rpe1 ≤ 10) (h1r1 : 1 ≤ reps1) (h1r20 : reps1 ≤ 20)
    (h25 : 5 ≤ rpe2) (h210 : rpe2 ≤ 10) (h2r1 : 1 ≤ reps2) (h2r20 : reps2 ≤ 20) :
    calculate_warmup_sets rpe1 w reps1 = calculate_warmup_sets rpe2 w reps2 := by
  unfold calculate_warmup_sets
  rw [if_neg (not_not_intro ⟨h15, h110⟩), if_neg (not_le.mpr hw),
    if_neg (not_not_intro ⟨h1r1, h1r20⟩), if_neg (not_not_intro ⟨h25, h210⟩),
    if_neg (not_le.mpr hw), if_neg (not_not_intro ⟨h2r1, h2r20⟩)]

/-- Claim C7 witness: weight 100 with (rpe 8, reps 5) and (rpe 9.5, reps 3). -/
theorem warmups_independent_of_rpe_reps_witness :
    calculate_warmup_sets 8 100 5 = calculate_warmup_sets (19/2) 100 3 :=
  warmups_independent_of_rpe_reps 100 8 (19/2) 5 3 (by norm_num) (by norm_num)
    (by norm_num) (by norm_num) (by norm_num) (by norm_num) (by norm_num)
    (by norm_num) (by norm_num)

/-- Claim C9: for weight 2 and any valid rpe and reps, the returned warm-up
weights are [0.0, 2.5, 2.5, 2.5]: a set weight can be 0 and consecutive set
weights can be equal even though the input weight is strictly positive. -/
theorem warmups_weight2_zero_and_ties (rpe : ℚ) (reps : ℤ)
    (h5 : 5 ≤ rpe) (h10 : rpe ≤ 10) (hr1 : 1 ≤ reps) (hr20 : reps ≤ 20) :
    calculate_warmup_sets rpe 2 reps = Except.ok (warmupSetsCore 2) ∧
    (warmupSetsCore 2).map (fun s => s.weight) = [0, 5/2, 5/2, 5/2] := by
  constructor
  · unfold calculate_warmup_sets
    rw [if_neg (not_not_intro ⟨h5, h10⟩), if_neg (by norm_num : ¬(2:ℚ) ≤ 0),
      if_neg (not_not_intro ⟨hr1, hr20⟩)]
  · rw [warmupSetsCore_eq]
    norm_num [set_weight, pyRound, round_eq]

/-- Claim C9 witness at rpe 8, reps 5. -/
theorem warmups_weight2_zero_and_ties_witness :
    calculate_warmup_sets 8 2 5 = Except.ok (warmupSetsCore 2) :=
  (warmups_weight2_zero_and_ties 8 5 (by norm_num) (by norm_num) (by norm_num)
    (by norm_num)).1

/-- An `Except` value is an error exactly when it is not a success. -/
theorem except_error_iff_not_ok {e a : Type} (x : Except e a) :
    (∃ err, x = Except.error err) ↔ ¬(∃ v, x = Except.ok v) := by
  cases x <;> simp

/-- Success of `calculate_warmup_sets` happens exactly on in-range inputs. -/
theorem warmup_ok_iff (rpe w : ℚ) (reps : ℤ) :
    (∃ sets, calculate_warmup_sets rpe w reps = Except.ok sets) ↔
      (5 ≤ rpe ∧ rpe ≤ 10 ∧ 0 < w ∧ 1 ≤ reps ∧ reps ≤ 20) := by
  unfold calculate_warmup_sets
  split_ifs with h1 h2 h3
  all_goals constructor
  all_goals
    first
    | (rintro ⟨x, hx⟩
       first
       | exact ⟨h1.1, h1.2, not_le.mp h2, h3.1, h3.2⟩
       | exact hx.elim
       | simp at hx)
    | (rintro ⟨a, b, hw, c, d⟩
       first
       | exact ⟨_, rfl⟩
       | exact absurd ⟨a, b⟩ h1
       | exact absurd h2 (not_le.mpr hw)
       | exact absurd ⟨c, d⟩ h3)

/-- Success of `predict_max_reps` happens exactly on in-range inputs. -/
theorem predict_ok_iff (w rpe : ℚ) :
    (∃ n, predict_max_reps w rpe = Except.ok n) ↔ (0 < w ∧ 5 ≤ rpe ∧ rpe ≤ 10) := by
  unfold predict_max_reps
  split_ifs with h1 h2
  all_goals constructor
  all_goals
    first
    | (rintro ⟨x, hx⟩
       first
       | exact ⟨not_le.mp h1, h2.1, h2.2⟩
       | exact hx.elim
       | simp at hx)
    | (rintro ⟨hw, a, b⟩
       first
       | exact ⟨_, rfl⟩
       | exact absurd h1 (not_le.mpr hw)
       | exact absurd ⟨a, b⟩ h2)

/-- Claim C5: `generate_warmups` raises `InvalidInput` if and only if rpe is
outside [5.0, 10.0] (checked on the raw rpe) or weight ≤ 0 or reps is outside
[1, 20]; `predict_max_reps` raises if and only if weight ≤ 0 or rpe is outside
[5.0, 10.0]; every in-range input returns normally and no other error occurs. -/
theorem invalid_input_iff (rpe w : ℚ) (reps : ℤ) :
    ((∃ sets, calculate_warmup_sets rpe w reps = Except.ok sets) ↔
      (5 ≤ rpe ∧ rpe ≤ 10 ∧ 0 < w ∧ 1 ≤ reps ∧ reps ≤ 20)) ∧
    ((∃ e, calculate_warmup_sets rpe w reps = Except.error e) ↔
      ¬(5 ≤ rpe ∧ rpe ≤ 10 ∧ 0 < w ∧ 1 ≤ reps ∧ reps ≤ 20)) ∧
    ((∃ n, predict_max_reps w rpe = Except.ok n) ↔ (0 < w ∧ 5 ≤ rpe ∧ rpe ≤ 10)) ∧
    ((∃ e, predict_max_reps w rpe = Except.error e) ↔ ¬(0 < w ∧ 5 ≤ rpe ∧ rpe ≤ 10)) :=
  ⟨warmup_ok_iff rpe w reps,
   by rw [except_error_iff_not_ok, warmup_ok_iff],
   predict_ok_iff w rpe,
   by rw [except_error_iff_not_ok, predict_ok_iff]⟩

/-- Claim C3 counterexample: `generate_warmups(rpe=8, weight=140, reps=5)` does
NOT return the weights [70.0, 98.0, 112.0, 126.0] stated by the specification
(98, 112 and 126 are not multiples of 2.5, but every produced weight is). -/
theorem warmups_140_example_cex :
    ((calculate_warmup_sets 8 140 5).toOption.getD []).map (fun s => s.weight)
      ≠ [70, 98, 112, 126] := by
  norm_num [calculate_warmup_sets, warmupSetsCore, warmup_percentages, set_weight, pyRound,
    round_eq, List.enum, Except.toOption]

/-- Claim C3 amended: `generate_warmups(rpe=8, weight=140, reps=5)` returns four
sets with weights [70.0, 97.5, 112.5, 125.0], matching reps [5, 3, 2, 1] and the
fixed descriptions. -/
theorem warmups_140_example_corrected :
    calculate_warmup_sets 8 140 5 = Except.ok
      [⟨1, 70, 5, "50% of top set"⟩,
       ⟨2, 195/2, 3, "70% of top set"⟩,
       ⟨3, 225/2, 2, "80% of top set"⟩,
       ⟨4, 125, 1, "90% of top set"⟩] := by
  rw [show (calculate_warmup_sets 8 140 5) = Except.ok (warmupSetsCore 140) by
    unfold calculate_warmup_sets
    rw [if_neg (by norm_num), if_neg (by norm_num), if_neg (by norm_num)]]
  rw [warmupSetsCore_eq]
  norm_num [set_weight, pyRound, round_eq, WarmupSet.mk.injEq]

/-- Claim C10: the percent lookup is not monotone in reps across the
table/fallback boundary: at RPE 10 it returns 0.74 for 10 reps (table hit) but
the larger fallback value 1/(1 + 0.0333*10) for 11 reps. -/
theorem lookup_percent_not_monotone :
    _lookup_percent 10 10 = 74/100 ∧
    _lookup_percent 10 11 = 1 / (1 + 333/10000 * ((11 : ℚ) - 1)) ∧
    _lookup_percent 10 10 < _lookup_percent 10 11 := by
  have h1 : _lookup_percent 10 10 = 74/100 := by
    norm_num [_lookup_percent, quantizeRPE, pyRound, round_eq, dlookup,
      RPE_PERCENT_TABLE, rpeRow10]
  have h2 : _lookup_percent 10 11 = 1 / (1 + 333/10000 * ((11 : ℚ) - 1)) := by
    norm_num [_lookup_percent, quantizeRPE, pyRound, round_eq, dlookup,
      RPE_PERCENT_TABLE, rpeRow10]
  refine ⟨h1, h2, ?_⟩
  rw [h1, h2]; norm_num

/-- Claim C6: the percent lookup never fails and always returns a fraction in
(0, 1] for reps ≥ 1 (exactly 1 on the fallback path at reps = 1), so the
defensive `pct ≤ 0` guard in `predict_max_reps` is unreachable: the guarded
expression always takes the division branch. -/
theorem lookup_percent_safe :
    (∀ (rpe : ℚ) (reps : ℤ), 1 ≤ reps →
      0 < _lookup_percent rpe reps ∧ _lookup_percent rpe reps ≤ 1) ∧
    (∀ rpe : ℚ, dlookup (quantizeRPE rpe) RPE_PERCENT_TABLE = none →
      _lookup_percent rpe 1 = 1) ∧
    (∀ (w rpe : ℚ) (r : ℤ), 1 ≤ r →
      (if 0 < _lookup_percent rpe r then w / _lookup_percent rpe r else 0)
        = w / _lookup_percent rpe r) := by
  refine ⟨fun rpe reps h => lookup_percent_pos rpe h, fun rpe hnone => ?_,
    fun w rpe r hr => if_pos (lookup_percent_pos rpe hr).1⟩
  unfold _lookup_percent
  rw [hnone]
  norm_num

/-- Claim C6 witness at rpe 9, reps 3 (table path) and rpe 6, reps 1 (fallback,
RPE 6 is not a table key). -/
theorem lookup_percent_safe_witness :
    (0 < _lookup_percent 9 3 ∧ _lookup_percent 9 3 ≤ 1) ∧
    _lookup_percent 6 1 = 1 ∧
    ((if 0 < _lookup_percent 9 3 then (250 : ℚ) / _lookup_percent 9 3 else 0)
      = 250 / _lookup_percent 9 3) :=
  ⟨lookup_percent_safe.1 9 3 (by norm_num),
   lookup_percent_safe.2.1 6 (by
     norm_num [quantizeRPE, pyRound, round_eq, dlookup, RPE_PERCENT_TABLE]),
   lookup_percent_safe.2.2 250 9 3 (by norm_num)⟩

/-- Claim C8: RPE quantization resolves exact 0.25-boundary ties to the even
multiple of 0.5: for reps in 1..10, rpe = 7.25 quantizes to 7.0 — not a table
key — giving the fallback, while rpe = 7.75 quantizes to 8.0 and returns
`table[8][reps]/100`. -/
theorem quantization_half_to_even (reps : ℤ) (h1 : 1 ≤ reps) (h2 : reps ≤ 10) :
    (quantizeRPE (29/4) = 7 ∧ dlookup (7 : ℚ) RPE_PERCENT_TABLE = none ∧
     _lookup_percent (29/4) reps = 1 / (1 + 333/10000 * ((reps : ℚ) - 1))) ∧
    (quantizeRPE (31/4) = 8 ∧
     ∃ row v, dlookup (8 : ℚ) RPE_PERCENT_TABLE = some row ∧ dlookup reps row = some v ∧
       _lookup_percent (31/4) reps = (v : ℚ) / 100) := by
  have q1 : quantizeRPE (29/4) = 7 := by norm_num [quantizeRPE, pyRound]
  have hn : dlookup (7 : ℚ) RPE_PERCENT_TABLE = none := by
    norm_num [dlookup, RPE_PERCENT_TABLE]
  have q2 : quantizeRPE (31/4) = 8 := by norm_num [quantizeRPE, pyRound]
  have hrow : dlookup (8 : ℚ) RPE_PERCENT_TABLE = some rpeRow8 := by
    norm_num [dlookup, RPE_PERCENT_TABLE]
  refine ⟨⟨q1, hn, ?_⟩, ⟨q2, ?_⟩⟩
  · unfold _lookup_percent
    rw [q1, hn]
    norm_num
  · interval_cases reps <;>
      exact ⟨rpeRow8, _, hrow, rfl, by
        norm_num [_lookup_percent, quantizeRPE, pyRound, round_eq, dlookup,
          RPE_PERCENT_TABLE, rpeRow8]⟩

/-- Claim C8 witness at reps = 3. -/
theorem quantization_half_to_even_witness :
    quantizeRPE (29/4) = 7 ∧ quantizeRPE (31/4) = 8 :=
  ⟨(quantization_half_to_even 3 (by norm_num) (by norm_num)).1.1,
   (quantization_half_to_even 3 (by norm_num) (by norm_num)).2.1⟩

/-- Claim C2: `_lookup_percent` agrees everywhere with the specification's
reference description `lookup_percent_spec` (table hit exactly when the
quantized rpe is a table key and reps is in 1..10; otherwise the
rpe-independent Epley fallback). -/
theorem lookup_percent_matches_spec (rpe : ℚ) (reps : ℤ) :
    _lookup_percent rpe reps = lookup_percent_spec rpe reps := by
  unfold _lookup_percent lookup_percent_spec
  by_cases hk : quantizeRPE rpe = 10 ∨ quantizeRPE rpe = 19/2 ∨ quantizeRPE rpe = 9 ∨
      quantizeRPE rpe = 17/2 ∨ quantizeRPE rpe = 8 ∨ quantizeRPE rpe = 15/2
  · by_cases hr : 1 ≤ reps ∧ reps ≤ 10
    · rw [if_pos ⟨hk, hr⟩]
      obtain ⟨hr1, hr2⟩ := hr
      rcases hk with h|h|h|h|h|h <;> rw [h] <;> interval_cases reps <;>
        norm_num [dlookup, RPE_PERCENT_TABLE, rpeRow10, rpeRow95, rpeRow9,
          rpeRow85, rpeRow8, rpeRow75]
    · rw [if_neg (fun hc => hr hc.2)]
      cases htab : dlookup (quantizeRPE rpe) RPE_PERCENT_TABLE with
      | none => simp
      | some row =>
        have hmem := dlookup_mem htab
        simp only [RPE_PERCENT_TABLE, List.mem_cons, List.not_mem_nil, or_false,
          Prod.mk.injEq] at hmem
        have hkeys : ∀ p ∈ row, 1 ≤ p.1 ∧ p.1 ≤ 10 := by
          rcases hmem with ⟨-, hrw⟩|⟨-, hrw⟩|⟨-, hrw⟩|⟨-, hrw⟩|⟨-, hrw⟩|⟨-, hrw⟩ <;>
            subst hrw <;> decide
        have hnone : dlookup reps row = none :=
          dlookup_eq_none (fun p hp => by have := hkeys p hp; omega)
        simp [hnone]
  · rw [if_neg (fun hc => hk hc.1)]
    push_neg at hk
    obtain ⟨h1, h2, h3, h4, h5, h6⟩ := hk
    have htab : dlookup (quantizeRPE rpe) RPE_PERCENT_TABLE = none := by
      simp only [RPE_PERCENT_TABLE, dlookup]
      rw [if_neg h1, if_neg h2, if_neg h3, if_neg h4, if_neg h5, if_neg h6]
    rw [htab]
    simp
